import Mathlib

/-!
# File Integrity Monitor — shallow embedding

A shallow embedding in Lean 4 of the core of the File-Integrity-Monitor
repository (`src/fim/models.py`, `src/fim/database.py`, `src/fim/core.py`),
with theorems settling the specification claims.

Modelling conventions:
* Python datetimes / isoformat timestamps are opaque `String`s; `mtime`/`ctime`
  floats are modelled as `Int` (only their equality and string rendering in
  canonical signature strings matter to the claims).
* The HMAC-SHA256 signer (`DatabaseManager._sign_data`, keyed by the per-store
  random secret) is an abstract function `sign : String → String`;
  `_verify_signature` is equality of `sign data` with the stored signature
  (`hmac.compare_digest` is equality, constant-timeness aside).
* The SQLite tables `baseline`, `events`, `audit_log` are lists of row
  structures in a `DBState` — the *committed* contents of the database file.
* The stdlib partial decoders the read path applies to TEXT columns are
  abstract parameters: `parseIso : String → Option String` abstracts
  `datetime.fromisoformat` (`none` = `ValueError`; on strings the code itself
  writes — `datetime.isoformat()` outputs — it returns `some` of the canonical
  text), and `parseJson : String → Option (List (String × MetaVal))` abstracts
  `json.loads` on the `metadata` TEXT column (`none` = `JSONDecodeError`).
  These columns are *not* covered by the row signatures, so their decoders are
  genuine failure paths on directly-tampered storage.
* The mutating path is modelled after its real concurrency behaviour.
  `DatabaseManager` uses `sqlite3.connect` with all defaults: legacy implicit
  transactions, rollback-journal mode, 5-second busy timeout, and no PRAGMAs
  anywhere. `store_baseline` / `store_event` execute their primary INSERT on
  an outer connection, which implicitly opens a transaction and takes the
  database write lock. `_log_audit` (`database.py:120`) then opens a *second*
  connection to the same file and issues its own INSERT, which blocks on that
  held lock; both run on the same thread, so the lock is never released, and
  after the busy timeout sqlite3 raises
  `OperationalError("database is locked")`. Neither function catches it, both
  connections close, and the outer transaction rolls back: a mutating call
  that processes at least one row always raises and commits nothing. The
  models return `Except.error "database is locked"` for those calls, with the
  convention that an error leaves the committed `DBState` unchanged.
* The filesystem seen by `os.walk` / `os.stat` / `open` is an `FS` structure:
  an enumeration order for regular files, a partial stat map (`none` = OSError
  from `os.stat`), and a partial content-hash map (`none` = OSError while
  reading, the case `FileRecord._calculate_hash` turns into an empty hash).
* `fnmatch.fnmatch` (stdlib) is an abstract matcher parameter
  `matchFn : String → String → Bool` applied, as in the source, to the full
  path and to the basename.
-/

/-! ## Association-list helpers (Python `dict` keyed by strings) -/

/-- Lookup in an association list (first binding wins), as Python `d[k]` /
`k in d` on insertion-ordered dicts. -/
def lookupA {α : Type} (l : List (String × α)) (k : String) : Option α :=
  match l with
  | [] => none
  | (k', v) :: rest => if k' == k then some v else lookupA rest k

/-- Python `d[k] = v` on an insertion-ordered dict: replace in place if the
key is bound, else append. -/
def updA {α : Type} (l : List (String × α)) (k : String) (v : α) : List (String × α) :=
  match l with
  | [] => [(k, v)]
  | (k', v') :: rest => if k' == k then (k, v) :: rest else (k', v') :: updA rest k v

/-- Keys of an association list. -/
def keysA {α : Type} (l : List (String × α)) : List String := l.map Prod.fst

/-! ## `src/fim/models.py` -/

/-- `EventType` enum (`models.py:14`). -/
inductive EventType where
  | created
  | modified
  | deleted
  | moved
  | permissionChanged
  | ownerChanged
  | baseline
  deriving DecidableEq, Repr

/-- `EventType.value` strings. -/
def EventType.value : EventType → String
  | .created => "created"
  | .modified => "modified"
  | .deleted => "deleted"
  | .moved => "moved"
  | .permissionChanged => "permission_changed"
  | .ownerChanged => "owner_changed"
  | .baseline => "baseline"

/-- Inverse of `EventType.value`, as the Python `EventType(s)` enum call;
`none` models the `ValueError` raised on a value outside the enum. -/
def EventType.fromValue : String → Option EventType
  | "created" => some .created
  | "modified" => some .modified
  | "deleted" => some .deleted
  | "moved" => some .moved
  | "permission_changed" => some .permissionChanged
  | "owner_changed" => some .ownerChanged
  | "baseline" => some .baseline
  | _ => none

/-- `FileRecord` dataclass (`models.py:26`). Timestamps are opaque strings,
`mtime`/`ctime` are `Int` stand-ins for the stat floats. -/
structure FileRecord where
  file_path : String
  file_hash : String
  file_size : Nat
  mtime : Int
  ctime : Int
  permissions : Nat
  owner : String
  group : String
  inode : Nat
  device : Nat
  created_at : String
  updated_at : String
  deriving DecidableEq, Repr

/-- A JSON-able metadata value (the FileEvent metadata dict holds booleans and
strings). -/
inductive MetaVal where
  | b : Bool → MetaVal
  | s : String → MetaVal
  deriving DecidableEq, Repr

/-- `FileEvent` dataclass (`models.py:128`), after `__post_init__` (so
`event_id` is the generated-or-given id). -/
structure FileEvent where
  event_id : String
  event_type : EventType
  file_path : String
  timestamp : String
  agent_id : String
  previous_hash : Option String := none
  current_hash : Option String := none
  file_size : Option Nat := none
  permissions : Option Nat := none
  owner : Option String := none
  group : Option String := none
  metadata : List (String × MetaVal) := []
  deriving DecidableEq, Repr

/-- The result of one `os.stat` call (`models.py:45`): the fields
`FileRecord.from_path` reads, with owner/group already resolved to the strings
the pwd/grp lookup-or-numeric-fallback produces (`models.py:51-59`; the
fallback never fails, so resolution is total). -/
structure FileStat where
  st_size : Nat
  st_mtime : Int
  st_ctime : Int
  st_mode : Nat
  owner : String
  group : String
  st_ino : Nat
  st_dev : Nat
  deriving DecidableEq, Repr

/-- The filesystem as the walk sees it: `files` is the `os.walk` enumeration
of regular-file paths under the root, `stat` is `os.stat` (`none` = OSError),
`readHash` is the streamed SHA-256 over the file contents (`none` = OSError
while opening/reading, i.e. the file vanished or became unreadable between
the stat and the read). -/
structure FS where
  files : List String
  stat : String → Option FileStat
  readHash : String → Option String

/-- `FileRecord._calculate_hash` (`models.py:77`): returns the streamed hash,
or the empty string when the open/read raises OSError
(`models.py:85-87`, "Return empty hash for inaccessible files"). -/
def calculate_hash (fs : FS) (file_path : String) : String :=
  match fs.readHash file_path with
  | some h => h
  | none => ""

/-- `FileRecord.from_path` (`models.py:42`): stat, hash, resolve owner/group;
an OSError from `os.stat` is re-raised as
`ValueError("Could not read file ...")` (`models.py:73-74`), modelled as
`Except.error`. `now` is `datetime.utcnow().isoformat()` for the
`created_at`/`updated_at` defaults. -/
def from_path (fs : FS) (now : String) (file_path : String) : Except String FileRecord :=
  match fs.stat file_path with
  | none => .error ("Could not read file " ++ file_path)
  | some st =>
      .ok {
        file_path := file_path
        file_hash := calculate_hash fs file_path
        file_size := st.st_size
        mtime := st.st_mtime
        ctime := st.st_ctime
        permissions := st.st_mode
        owner := st.owner
        group := st.group
        inode := st.st_ino
        device := st.st_dev
        created_at := now
        updated_at := now }

/-! ## `src/fim/database.py` -/

/-- A row of the `baseline` table (`database.py:37-54`), sans the surrogate
autoincrement id (list position plays the rowid's ordering role). -/
structure BaselineRow where
  file_path : String
  file_hash : String
  file_size : Nat
  mtime : Int
  ctime : Int
  permissions : Nat
  owner : String
  group_name : String
  inode : Nat
  device : Nat
  created_at : String
  updated_at : String
  signature : String
  deriving DecidableEq, Repr

/-- A row of the `events` table (`database.py:57-74`); `event_type`,
`timestamp` and `metadata` are the stored TEXT values (in particular
`metadata` is the raw JSON text, which the read path must decode). -/
structure EventRow where
  event_id : String
  event_type : String
  file_path : String
  timestamp : String
  agent_id : String
  previous_hash : Option String
  current_hash : Option String
  file_size : Option Nat
  permissions : Option Nat
  owner : Option String
  group_name : Option String
  metadata : String
  signature : String
  deriving DecidableEq, Repr

/-- A row of the `audit_log` table (`database.py:77-88`). (Rows can exist in
this table only if written directly in storage: the code's own audit write
path never commits — see `logAudit`.) -/
structure AuditRow where
  operation : String
  table_name : String
  record_id : String
  timestamp : String
  user : String
  details : Option String
  signature : String
  deriving DecidableEq, Repr

/-- The committed (visible) contents of the SQLite database file. -/
structure DBState where
  baseline : List BaselineRow
  events : List EventRow
  audit_log : List AuditRow
  deriving DecidableEq, Repr

/-- `_verify_signature` (`database.py:112`): recompute and compare
(`hmac.compare_digest` is equality). -/
def verify_signature (sign : String → String) (data signature : String) : Bool :=
  sign data == signature

/-- Canonical string signed for a baseline record (`database.py:144`,
`database.py:180`): `f"{path}:{hash}:{size}:{mtime}"`. Note it covers only
these four columns — `created_at`/`updated_at` are unsigned. -/
def baselineData (file_path file_hash : String) (file_size : Nat) (mtime : Int) : String :=
  file_path ++ ":" ++ file_hash ++ ":" ++ toString file_size ++ ":" ++ toString mtime

/-- Canonical string signed for an event (`database.py:208`,
`database.py:260`): `f"{event_id}:{event_type}:{path}:{timestamp}"`. Note it
does not cover the `metadata` column. -/
def eventData (event_id event_type file_path timestamp : String) : String :=
  event_id ++ ":" ++ event_type ++ ":" ++ file_path ++ ":" ++ timestamp

/-- `_log_audit` (`database.py:117`). It computes the canonical audit string
and signature, then opens a second connection to the same database file and
INSERTs the audit row. Its only call sites are inside `store_baseline`
(`database.py:160`) and `store_event` (`database.py:224`), at a point where
the calling connection's implicit transaction already holds the database
write lock from the primary INSERT; the second connection's INSERT blocks on
that lock on the same thread and, after the 5-second busy timeout, raises
`sqlite3.OperationalError("database is locked")`. No audit row is ever
committed by this function. -/
def logAudit (sign : String → String) (now operation table_name record_id user : String)
    (details : Option String) : Except String AuditRow :=
  .error "database is locked"

/-- The signed baseline row `store_baseline` builds and INSERTs (uncommitted)
for one record (`database.py:142-157`). The INSERT itself succeeds on the
outer connection, but is rolled back when the call fails in `_log_audit`, so
rows of this shape never become visible through this code path. -/
def mkBaselineRow (sign : String → String) (r : FileRecord) : BaselineRow :=
  { file_path := r.file_path
    file_hash := r.file_hash
    file_size := r.file_size
    mtime := r.mtime
    ctime := r.ctime
    permissions := r.permissions
    owner := r.owner
    group_name := r.group
    inode := r.inode
    device := r.device
    created_at := r.created_at
    updated_at := r.updated_at
    signature := sign (baselineData r.file_path r.file_hash r.file_size r.mtime) }

/-- `store_baseline` (`database.py:137`), committed-state semantics. With an
empty record list the loop body never runs and the final `conn.commit()`
commits an empty transaction: success, store unchanged. With at least one
record, the first iteration's INSERT takes the write lock and the nested
`_log_audit` call raises `OperationalError("database is locked")` (see
`logAudit`); the exception propagates (no try/except in the function), the
outer connection closes and its transaction rolls back — nothing, neither a
baseline row nor an audit row, becomes visible. -/
def store_baseline (sign : String → String) (now : String) (db : DBState)
    (file_records : List FileRecord) (user : String) : Except String DBState :=
  match file_records with
  | [] => .ok db
  | _ :: _ => .error "database is locked"

/-- `store_event` (`database.py:202`), committed-state semantics. The call
always executes one INSERT and then `_log_audit`, so it always raises
`OperationalError("database is locked")` (see `logAudit`) and commits
nothing. -/
def store_event (sign : String → String) (now : String) (db : DBState) (e : FileEvent)
    (user : String) : Except String DBState :=
  .error "database is locked"

/-- `json.loads(row['metadata']) if row['metadata'] else {}`
(`database.py:276`): a falsy (empty) TEXT value decodes to the empty dict
without invoking the JSON decoder. -/
def metaLoads (parseJson : String → Option (List (String × MetaVal))) (s : String) :
    Option (List (String × MetaVal)) :=
  if s == "" then some [] else parseJson s

/-- The `FileRecord` reconstructed from a baseline row
(`database.py:184-197`), `none` when `datetime.fromisoformat` fails on one
of the unsigned `created_at`/`updated_at` columns (`database.py:195-196`). -/
def rowToRecord (parseIso : String → Option String) (row : BaselineRow) :
    Option FileRecord :=
  (parseIso row.created_at).bind fun ca =>
    (parseIso row.updated_at).map fun ua =>
      { file_path := row.file_path
        file_hash := row.file_hash
        file_size := row.file_size
        mtime := row.mtime
        ctime := row.ctime
        permissions := row.permissions
        owner := row.owner
        group := row.group_name
        inode := row.inode
        device := row.device
        created_at := ca
        updated_at := ua }

/-- The per-row loop of `get_baseline` (`database.py:177-198`): recompute the
canonical string from the row and check the stored signature first — the
first failure raises `ValueError("Tampering detected in baseline record for
...")`; only then is the `FileRecord` constructed, where
`datetime.fromisoformat` on the unsigned `created_at` (`database.py:195`) and
`updated_at` (`database.py:196`) columns can raise `ValueError` even though
every signature verified. -/
def verifyBaselineRows (sign : String → String) (parseIso : String → Option String) :
    List BaselineRow → Except String (List FileRecord)
  | [] => .ok []
  | row :: rest =>
      if verify_signature sign
          (baselineData row.file_path row.file_hash row.file_size row.mtime) row.signature then
        match parseIso row.created_at with
        | none => .error ("Invalid isoformat string: " ++ row.created_at)
        | some ca =>
            match parseIso row.updated_at with
            | none => .error ("Invalid isoformat string: " ++ row.updated_at)
            | some ua =>
                (verifyBaselineRows sign parseIso rest).map (fun l =>
                  { file_path := row.file_path
                    file_hash := row.file_hash
                    file_size := row.file_size
                    mtime := row.mtime
                    ctime := row.ctime
                    permissions := row.permissions
                    owner := row.owner
                    group := row.group_name
                    inode := row.inode
                    device := row.device
                    created_at := ca
                    updated_at := ua } :: l)
      else
        .error ("Tampering detected in baseline record for " ++ row.file_path)

/-- The rows `get_baseline` selects (`database.py:172-175`): all rows, or the
rows with the given path (`if file_path:` — the empty string is falsy, so it
selects all). -/
def selectBaselineRows (db : DBState) (file_path : Option String) : List BaselineRow :=
  match file_path with
  | some p => if p == "" then db.baseline else db.baseline.filter (fun row => row.file_path == p)
  | none => db.baseline

/-- `get_baseline` (`database.py:167`): select, then re-verify and decode
each row. -/
def get_baseline (sign : String → String) (parseIso : String → Option String)
    (db : DBState) (file_path : Option String) : Except String (List FileRecord) :=
  verifyBaselineRows sign parseIso (selectBaselineRows db file_path)

/-- The `FileEvent` reconstructed from an event row (`database.py:264-277`),
`none` when the `EventType(...)` enum call, `datetime.fromisoformat` on the
timestamp, or `json.loads` on the unsigned `metadata` column fails. -/
def rowToEvent (parseIso : String → Option String)
    (parseJson : String → Option (List (String × MetaVal))) (row : EventRow) :
    Option FileEvent :=
  (EventType.fromValue row.event_type).bind fun et =>
    (parseIso row.timestamp).bind fun ts =>
      (metaLoads parseJson row.metadata).map fun md =>
        { event_id := row.event_id
          event_type := et
          file_path := row.file_path
          timestamp := ts
          agent_id := row.agent_id
          previous_hash := row.previous_hash
          current_hash := row.current_hash
          file_size := row.file_size
          permissions := row.permissions
          owner := row.owner
          group := row.group_name
          metadata := md }

/-- The per-row loop of `get_events` (`database.py:257-278`): signature check
first (raise `ValueError("Tampering detected in event record ...")` naming
the event id on the first failure), then the `FileEvent` construction, whose
argument expressions can raise in source order: `EventType(row)` on a value
outside the enum, `datetime.fromisoformat` on the timestamp, `json.loads` on
the unsigned `metadata` column. -/
def verifyEventRows (sign : String → String) (parseIso : String → Option String)
    (parseJson : String → Option (List (String × MetaVal))) :
    List EventRow → Except String (List FileEvent)
  | [] => .ok []
  | row :: rest =>
      if verify_signature sign
          (eventData row.event_id row.event_type row.file_path row.timestamp) row.signature then
        match EventType.fromValue row.event_type with
        | none => .error (row.event_type ++ " is not a valid EventType")
        | some et =>
            match parseIso row.timestamp with
            | none => .error ("Invalid isoformat string: " ++ row.timestamp)
            | some ts =>
                match metaLoads parseJson row.metadata with
                | none => .error ("Expecting value: " ++ row.metadata)
                | some md =>
                    (verifyEventRows sign parseIso parseJson rest).map (fun l =>
                      { event_id := row.event_id
                        event_type := et
                        file_path := row.file_path
                        timestamp := ts
                        agent_id := row.agent_id
                        previous_hash := row.previous_hash
                        current_hash := row.current_hash
                        file_size := row.file_size
                        permissions := row.permissions
                        owner := row.owner
                        group := row.group_name
                        metadata := md } :: l)
      else
        .error ("Tampering detected in event record " ++ row.event_id)

/-- Lexicographic order on codepoint lists (SQLite's memcmp ordering of TEXT
values, which coincides with codepoint order on the ASCII isoformat
timestamps stored here). -/
def charListLt : List Char → List Char → Bool
  | _, [] => false
  | [], _ :: _ => true
  | a :: as, b :: bs =>
      if Nat.blt a.toNat b.toNat then true
      else if Nat.blt b.toNat a.toNat then false
      else charListLt as bs

/-- String comparison used by `ORDER BY` on the TEXT `timestamp` column. -/
def strLt (a b : String) : Bool := charListLt a.toList b.toList

/-- Insert an event row into a list sorted newest-first by the TEXT
`timestamp` column (`ORDER BY timestamp DESC`, `database.py:249`), keeping
the insertion stable for equal keys. -/
def insertByTsDesc (row : EventRow) : List EventRow → List EventRow
  | [] => [row]
  | x :: xs =>
      if strLt x.timestamp row.timestamp then row :: x :: xs else x :: insertByTsDesc row xs

/-- `ORDER BY timestamp DESC` over the selected rows. -/
def sortByTsDesc (rows : List EventRow) : List EventRow :=
  rows.foldl (fun acc r => insertByTsDesc r acc) []

/-- The rows `get_events` selects (`database.py:238-255`): optional path
filter and event-type filter (`if file_path:` / `if event_type:` — the empty
path string is falsy and selects all; an enum member is always truthy),
ordered newest-first, then `LIMIT` (`if limit:` — a limit of `0` is falsy
and means no limit). -/
def selectEventRows (db : DBState) (file_path : Option String) (event_type : Option EventType)
    (limit : Option Nat) : List EventRow :=
  let rows :=
    match file_path with
    | some p => if p == "" then db.events else db.events.filter (fun row => row.file_path == p)
    | none => db.events
  let rows :=
    match event_type with
    | some et => rows.filter (fun row => row.event_type == et.value)
    | none => rows
  let rows := sortByTsDesc rows
  match limit with
  | some n => if n == 0 then rows else rows.take n
  | none => rows

/-- `get_events` (`database.py:231`): select, order, limit, then re-verify
and decode each row. -/
def get_events (sign : String → String) (parseIso : String → Option String)
    (parseJson : String → Option (List (String × MetaVal))) (db : DBState)
    (file_path : Option String) (event_type : Option EventType) (limit : Option Nat) :
    Except String (List FileEvent) :=
  verifyEventRows sign parseIso parseJson (selectEventRows db file_path event_type limit)

/-- The structured report `verify_integrity` returns (`database.py:327-332`). -/
structure IntegrityReport where
  baseline_integrity : Bool
  events_integrity : Bool
  audit_log_integrity : Bool
  errors : List String
  deriving DecidableEq, Repr

/-- `verify_integrity` (`database.py:325`): try `get_baseline()` and
`get_events(limit=100)`; each `except Exception` clause downgrades only its
own flag and appends a message; the audit-log flag is initialised `True` and
never touched. The function is total — every exception (tamper or decode) is
absorbed. -/
def verify_integrity (sign : String → String) (parseIso : String → Option String)
    (parseJson : String → Option (List (String × MetaVal))) (db : DBState) :
    IntegrityReport :=
  let results : IntegrityReport :=
    { baseline_integrity := true
      events_integrity := true
      audit_log_integrity := true
      errors := [] }
  let results :=
    match get_baseline sign parseIso db none with
    | .ok _ => results
    | .error e =>
        { results with
          baseline_integrity := false
          errors := results.errors ++ ["Baseline integrity check failed: " ++ e] }
  let results :=
    match get_events sign parseIso parseJson db none none (some 100) with
    | .ok _ => results
    | .error e =>
        { results with
          events_integrity := false
          errors := results.errors ++ ["Events integrity check failed: " ++ e] }
  results

/-! ## `src/fim/core.py` -/

/-- `os.path.basename`: the component after the last `/`. -/
def basename (p : String) : String :=
  String.mk ((p.toList.reverse.takeWhile (fun c => c != '/')).reverse)

/-- Python `str.lower` on the ASCII paths involved here. -/
def strLower (s : String) : String :=
  String.mk (s.toList.map Char.toLower)

/-- `BaselineManager._should_exclude` (`core.py:125`): no patterns means no
exclusion; otherwise a file is excluded when some pattern fnmatches the full
path or the basename. `matchFn` abstracts stdlib `fnmatch.fnmatch`. -/
def should_exclude (matchFn : String → String → Bool) (file_path : String)
    (exclude_patterns : List String) : Bool :=
  if exclude_patterns.isEmpty then false
  else exclude_patterns.any (fun pattern =>
    matchFn file_path pattern || matchFn (basename file_path) pattern)

/-- The paths the walk keeps: every enumerated regular file not matching an
exclusion pattern (`core.py:100-106`, `core.py:148-153`). -/
def includedFiles (fs : FS) (matchFn : String → String → Bool)
    (exclude_patterns : List String) : List String :=
  fs.files.filter (fun p => !should_exclude matchFn p exclude_patterns)

/-- The records both `create_baseline`'s fingerprint phase (`core.py:108-117`)
and `verify_baseline`'s walk (`core.py:155-159`) collect: fingerprint each
included file, skipping (with a warning) any whose `from_path` raises. -/
def collectRecords (fs : FS) (matchFn : String → String → Bool)
    (exclude_patterns : List String) (now : String) : List FileRecord :=
  (includedFiles fs matchFn exclude_patterns).filterMap
    (fun p => (from_path fs now p).toOption)

/-- `BaselineManager.create_baseline` (`core.py:83`): walk and fingerprint
(this phase completes, skipping unreadable files), then call
`store_baseline` (`core.py:120`, no try/except): for a non-empty record list
`store_baseline` raises `OperationalError("database is locked")` and the
exception propagates out of `create_baseline`, which therefore never reaches
its `return` (`core.py:123`); for an empty record list the call completes
and returns the empty list with the store unchanged. -/
def create_baseline (sign : String → String) (now : String) (fs : FS)
    (matchFn : String → String → Bool) (exclude_patterns : List String) (db : DBState) :
    Except String (DBState × List FileRecord) :=
  let file_records := collectRecords fs matchFn exclude_patterns now
  (store_baseline sign now db file_records "system").map (fun db' => (db', file_records))

/-- The results dictionary of `verify_baseline` (`core.py:165-173`). -/
structure VerifyResults where
  total_files : Nat
  baseline_files : Nat
  created : List String
  deleted : List String
  modified : List String
  permission_changed : List String
  unchanged : List String
  deriving DecidableEq, Repr

/-- One iteration of the first comparison loop of `verify_baseline`
(`core.py:175-186`): classify a current-state entry against the baseline
map — hash first, then permission bits, else unchanged. -/
def classifyStep (baseline_records : List (String × FileRecord)) (res : VerifyResults)
    (kv : String × FileRecord) : VerifyResults :=
  match lookupA baseline_records kv.1 with
  | none => { res with created := res.created ++ [kv.1] }
  | some baseline_record =>
      if kv.2.file_hash != baseline_record.file_hash then
        { res with modified := res.modified ++ [kv.1] }
      else if kv.2.permissions != baseline_record.permissions then
        { res with permission_changed := res.permission_changed ++ [kv.1] }
      else
        { res with unchanged := res.unchanged ++ [kv.1] }

/-- The comparison core of `verify_baseline` (`core.py:164-191`): the first
loop classifies every current path, the second adds to `deleted` every
baseline path absent from the current map. -/
def classify_diff (current_records baseline_records : List (String × FileRecord)) :
    VerifyResults :=
  let res : VerifyResults :=
    { total_files := current_records.length
      baseline_files := baseline_records.length
      created := []
      deleted := []
      modified := []
      permission_changed := []
      unchanged := [] }
  let res := current_records.foldl (classifyStep baseline_records) res
  baseline_records.foldl
    (fun r kv =>
      match lookupA current_records kv.1 with
      | none => { r with deleted := r.deleted ++ [kv.1] }
      | some _ => r)
    res

/-- A list of records as an insertion-ordered dict keyed by path, as the
walk loop `current_records[file_path] = record` (`core.py:157`) and the
comprehension over `get_baseline()` (`core.py:162`) build. -/
def recordMap (records : List FileRecord) : List (String × FileRecord) :=
  records.foldl (fun m r => updA m r.file_path r) []

/-- `BaselineManager.verify_baseline` (`core.py:140`): build the current map
from a fresh walk, fetch the stored baseline through the verifying read
(an exception there — tamper or decode — propagates), then diff. This
function only reads; it never calls the failing mutation path. -/
def verify_baseline (sign : String → String) (parseIso : String → Option String)
    (now : String) (fs : FS) (matchFn : String → String → Bool)
    (exclude_patterns : List String) (db : DBState) : Except String VerifyResults :=
  let current_records := recordMap (collectRecords fs matchFn exclude_patterns now)
  (get_baseline sign parseIso db none).map
    (fun recs => classify_diff current_records (recordMap recs))

/-- Does `needle` occur as a contiguous substring of `hay` (Python `in` on
strings)? -/
def listContainsSub (needle : List Char) : List Char → Bool
  | [] => needle.isEmpty
  | c :: t => needle.isPrefixOf (c :: t) || listContainsSub needle t

/-- Python `needle in hay` for strings. -/
def strContains (hay needle : String) : Bool :=
  listContainsSub needle.toList hay.toList

/-- Index of the last occurrence of `c`, as Python `str.rfind`. -/
def lastIdxOf (c : Char) (l : List Char) : Option Nat :=
  ((l.enum.filter (fun x => x.2 == c)).getLast?).map Prod.fst

/-- `pathlib.Path(p).suffix`: the extension of the final component — the
slice from the last dot, provided that dot is neither leading nor trailing
in the component. -/
def pathSuffix (p : String) : String :=
  let name := (basename p).toList
  match lastIdxOf '.' name with
  | some i => if 0 < i && i + 1 < name.length then String.mk (name.drop i) else ""
  | none => ""

/-- The fixed security-sensitive extension set (`core.py:290`). -/
def criticalExtensions : List String :=
  [".exe", ".dll", ".so", ".dylib", ".conf", ".config", ".ini"]

/-- The fixed sensitive-directory segments (`core.py:291`). -/
def criticalPaths : List String :=
  ["etc", "bin", "sbin", "usr/bin", "usr/sbin", "Windows/System32"]

/-- `FileMonitor._is_critical_change` (`core.py:288`): lower-cased extension
in the critical set, or some critical segment a substring of the lower-cased
path (the segments themselves are compared as written). -/
def is_critical_change (file_event : FileEvent) : Bool :=
  let file_ext := strLower (pathSuffix file_event.file_path)
  let file_path_lower := strLower file_event.file_path
  criticalExtensions.contains file_ext
    || criticalPaths.any (fun critical => strContains file_path_lower critical)

/-- `FileMonitor._send_alert` (`core.py:299`): record the alert in the
in-memory event's metadata (`alert_sent`, then `alert_timestamp`). -/
def send_alert (now : String) (file_event : FileEvent) : FileEvent :=
  { file_event with
    metadata := updA (updA file_event.metadata "alert_sent" (.b true))
      "alert_timestamp" (.s now) }

/-- `core.py:270-272`: populate `previous_hash` from the first baseline
record for the path when one exists (`if baseline_records:`). This mutates
the caller's event object in place, so it is visible even when a later step
of the handler fails. -/
def eventWithPrevHash (baseline_records : List FileRecord) (file_event : FileEvent) :
    FileEvent :=
  match baseline_records with
  | r :: _ => { file_event with previous_hash := some r.file_hash }
  | [] => file_event

/-- `FileMonitor._handle_file_event` (`core.py:266`): the whole body —
baseline lookup, `store_event`, critical-change check, `_send_alert` — is
wrapped in one `try/except Exception` (`core.py:268`, `core.py:285`). A
failing `get_baseline` is caught with nothing done; otherwise the event (with
`previous_hash` set in place) is passed to `store_event`, and only if that
succeeds does the classifier/alert code run. Since `store_event` always
raises (see `store_event`), in the source the handler always ends in the
`except` branch: no event row is persisted and `_send_alert` never runs.
Returns the committed database state and the in-memory event afterwards. -/
def handle_file_event (sign : String → String) (parseIso : String → Option String)
    (now : String) (db : DBState) (file_event : FileEvent) : DBState × FileEvent :=
  match get_baseline sign parseIso db (some file_event.file_path) with
  | .error _ => (db, file_event)
  | .ok baseline_records =>
      let ev := eventWithPrevHash baseline_records file_event
      match store_event sign now db ev "system" with
      | .error _ => (db, ev)
      | .ok db1 => if is_critical_change ev then (db1, send_alert now ev) else (db1, ev)

/-- The monitor-relevant state of a `FileMonitor` (`core.py:201-207`):
`observer` holds the engine spawned by the current `start` (if any),
`next_engine` numbers `Observer()` creations (so it counts engines ever
spawned), `warnings` counts `logger.warning` emissions. -/
structure MonitorState where
  is_monitoring : Bool
  observer : Option Nat
  next_engine : Nat
  warnings : Nat
  deriving DecidableEq, Repr

/-- `FileMonitor.start_monitoring` (`core.py:218`): if already monitoring,
warn and return; resolve `paths or self.monitor_paths` (an empty list is
falsy); raise `ValueError` when no paths remain; else spawn one observer,
warning for each nonexistent path, and set the monitoring flag. -/
def start_monitoring (cfg_paths : List String) (path_exists : String → Bool)
    (st : MonitorState) (paths : Option (List String)) : Except String MonitorState :=
  if st.is_monitoring then .ok { st with warnings := st.warnings + 1 }
  else
    let monitor_paths :=
      match paths with
      | some l => if l.isEmpty then cfg_paths else l
      | none => cfg_paths
    if monitor_paths.isEmpty then .error "No paths specified for monitoring"
    else
      .ok { st with
        observer := some st.next_engine
        next_engine := st.next_engine + 1
        is_monitoring := true
        warnings := st.warnings + (monitor_paths.filter (fun p => !path_exists p)).length }

/-- `FileMonitor.stop_monitoring` (`core.py:250`): if not monitoring, warn
and return; else stop and join the observer, release it, clear the flag. -/
def stop_monitoring (st : MonitorState) : MonitorState :=
  if !st.is_monitoring then { st with warnings := st.warnings + 1 }
  else { st with observer := none, is_monitoring := false }

/-! ## Lemmas: association lists -/

lemma lookupA_isSome_iff {α : Type} (l : List (String × α)) (k : String) :
    (lookupA l k).isSome ↔ ∃ v, (k, v) ∈ l := by
  induction l with
  | nil => simp [lookupA]
  | cons kv rest ih =>
      obtain ⟨k', v'⟩ := kv
      simp only [lookupA]
      by_cases h : k' = k
      · subst h
        simp
      · simp only [beq_iff_eq, h, if_false, ih, List.mem_cons, Prod.mk.injEq]
        constructor
        · rintro ⟨v, hv⟩
          exact ⟨v, Or.inr hv⟩
        · rintro ⟨v, hv | hv⟩
          · exact absurd hv.1.symm h
          · exact ⟨v, hv⟩

lemma mem_of_lookupA_eq_some {α : Type} {l : List (String × α)} {k : String} {v : α}
    (h : lookupA l k = some v) : (k, v) ∈ l := by
  induction l with
  | nil => simp [lookupA] at h
  | cons kv rest ih =>
      obtain ⟨k', v'⟩ := kv
      simp only [lookupA] at h
      by_cases hk : k' = k
      · subst hk
        simp at h
        subst h
        exact List.mem_cons_self _ _
      · simp only [beq_iff_eq, hk, if_false] at h
        exact List.mem_cons_of_mem _ (ih h)

lemma lookupA_eq_some_of_mem {α : Type} {l : List (String × α)} {k : String} {v : α}
    (hnd : (keysA l).Nodup) (hmem : (k, v) ∈ l) : lookupA l k = some v := by
  induction l with
  | nil => simp at hmem
  | cons kv rest ih =>
      obtain ⟨k', v'⟩ := kv
      simp only [keysA, List.map_cons, List.nodup_cons] at hnd
      rcases List.mem_cons.mp hmem with heq | hmem'
      · rw [Prod.mk.injEq] at heq
        obtain ⟨hk, hv⟩ := heq
        subst hk; subst hv
        simp [lookupA]
      · have hk : k' ≠ k := by
          intro hkk
          subst hkk
          exact hnd.1 (List.mem_map.mpr ⟨(k', v), hmem', rfl⟩)
        simp only [lookupA, beq_iff_eq, hk, if_false]
        exact ih hnd.2 hmem'

/-! ## Lemmas: the verifying read paths -/

/-- A baseline row the read loop rejects: failing signature, or a decode
failure on one of the unsigned `created_at`/`updated_at` columns. -/
def baselineRowBad (sign : String → String) (parseIso : String → Option String)
    (row : BaselineRow) : Bool :=
  !verify_signature sign
      (baselineData row.file_path row.file_hash row.file_size row.mtime) row.signature
    || (parseIso row.created_at).isNone || (parseIso row.updated_at).isNone

/-- The error `get_baseline` raises for the first bad row: the tamper error
(naming the row's path) when its signature fails, else the isoformat decode
error of the first undecodable timestamp column. -/
def baselineRowError (sign : String → String) (parseIso : String → Option String)
    (row : BaselineRow) : String :=
  if !verify_signature sign
      (baselineData row.file_path row.file_hash row.file_size row.mtime) row.signature then
    "Tampering detected in baseline record for " ++ row.file_path
  else if (parseIso row.created_at).isNone then
    "Invalid isoformat string: " ++ row.created_at
  else
    "Invalid isoformat string: " ++ row.updated_at

lemma verifyBaselineRows_eq (sign : String → String) (parseIso : String → Option String)
    (rows : List BaselineRow) :
    verifyBaselineRows sign parseIso rows =
      match rows.find? (baselineRowBad sign parseIso) with
      | some row => .error (baselineRowError sign parseIso row)
      | none => .ok (rows.filterMap (rowToRecord parseIso)) := by
  induction rows with
  | nil => rfl
  | cons row rest ih =>
      simp only [verifyBaselineRows, List.find?_cons]
      cases hs : verify_signature sign
          (baselineData row.file_path row.file_hash row.file_size row.mtime) row.signature
      · simp [baselineRowBad, baselineRowError, hs]
      · cases hca : parseIso row.created_at
        · simp [baselineRowBad, baselineRowError, hs, hca]
        · cases hua : parseIso row.updated_at
          · simp [baselineRowBad, baselineRowError, hs, hca, hua]
          · have hbad : baselineRowBad sign parseIso row = false := by
              simp [baselineRowBad, hs, hca, hua]
            simp only [hbad, Bool.false_eq_true, if_false, ih]
            cases hf : rest.find? (baselineRowBad sign parseIso) <;>
              simp [Except.map, List.filterMap_cons, rowToRecord, hca, hua]

/-- An event row the read loop rejects: failing signature, or a decode
failure in the `FileEvent` construction (kind outside the enum, undecodable
timestamp, undecodable metadata JSON). -/
def eventRowBad (sign : String → String) (parseIso : String → Option String)
    (parseJson : String → Option (List (String × MetaVal))) (row : EventRow) : Bool :=
  !verify_signature sign
      (eventData row.event_id row.event_type row.file_path row.timestamp) row.signature
    || (EventType.fromValue row.event_type).isNone
    || (parseIso row.timestamp).isNone
    || (metaLoads parseJson row.metadata).isNone

/-- The error `get_events` raises for the first bad row, in the source's
evaluation order: the tamper error (naming the event id) when the signature
fails, else the enum error, else the isoformat error, else the JSON error. -/
def eventRowError (sign : String → String) (parseIso : String → Option String)
    (parseJson : String → Option (List (String × MetaVal))) (row : EventRow) : String :=
  if !verify_signature sign
      (eventData row.event_id row.event_type row.file_path row.timestamp) row.signature then
    "Tampering detected in event record " ++ row.event_id
  else if (EventType.fromValue row.event_type).isNone then
    row.event_type ++ " is not a valid EventType"
  else if (parseIso row.timestamp).isNone then
    "Invalid isoformat string: " ++ row.timestamp
  else
    "Expecting value: " ++ row.metadata

lemma verifyEventRows_eq (sign : String → String) (parseIso : String → Option String)
    (parseJson : String → Option (List (String × MetaVal))) (rows : List EventRow) :
    verifyEventRows sign parseIso parseJson rows =
      match rows.find? (eventRowBad sign parseIso parseJson) with
      | some row => .error (eventRowError sign parseIso parseJson row)
      | none => .ok (rows.filterMap (rowToEvent parseIso parseJson)) := by
  induction rows with
  | nil => rfl
  | cons row rest ih =>
      simp only [verifyEventRows, List.find?_cons]
      cases hs : verify_signature sign
          (eventData row.event_id row.event_type row.file_path row.timestamp) row.signature
      · simp [eventRowBad, eventRowError, hs]
      · cases het : EventType.fromValue row.event_type
        · simp [eventRowBad, eventRowError, hs, het]
        · cases hts : parseIso row.timestamp
          · simp [eventRowBad, eventRowError, hs, het, hts]
          · cases hmd : metaLoads parseJson row.metadata
            · simp [eventRowBad, eventRowError, hs, het, hts, hmd]
            · have hbad : eventRowBad sign parseIso parseJson row = false := by
                simp [eventRowBad, hs, het, hts, hmd]
              simp only [hbad, Bool.false_eq_true, if_false, ih]
              cases hf : rest.find? (eventRowBad sign parseIso parseJson) <;>
                simp [Except.map, List.filterMap_cons, rowToEvent, het, hts, hmd]

/-! ## Lemmas: the walk and the diff -/

lemma collectRecords_map_path (fs : FS) (matchFn : String → String → Bool)
    (exclude_patterns : List String) (now : String) :
    (collectRecords fs matchFn exclude_patterns now).map FileRecord.file_path
      = (includedFiles fs matchFn exclude_patterns).filter (fun p => (fs.stat p).isSome) := by
  unfold collectRecords
  induction includedFiles fs matchFn exclude_patterns with
  | nil => rfl
  | cons p rest ih =>
      simp only [List.filterMap_cons, List.filter_cons]
      cases hst : fs.stat p
      · simpa [from_path, hst, Except.toOption] using ih
      · simpa [from_path, hst, Except.toOption] using ih

/-- Branch condition of the first verification loop: the path is new
(no baseline entry). -/
def isNewB (baseline_records : List (String × FileRecord)) (kv : String × FileRecord) : Bool :=
  (lookupA baseline_records kv.1).isNone

/-- Branch condition: baseline entry exists and the content hash differs. -/
def isModifiedB (baseline_records : List (String × FileRecord)) (kv : String × FileRecord) :
    Bool :=
  match lookupA baseline_records kv.1 with
  | some b => kv.2.file_hash != b.file_hash
  | none => false

/-- Branch condition: hash equal but the permission bits differ. -/
def isPermChangedB (baseline_records : List (String × FileRecord)) (kv : String × FileRecord) :
    Bool :=
  match lookupA baseline_records kv.1 with
  | some b => kv.2.file_hash == b.file_hash && kv.2.permissions != b.permissions
  | none => false

/-- Branch condition: hash and permission bits both equal. -/
def isUnchangedB (baseline_records : List (String × FileRecord)) (kv : String × FileRecord) :
    Bool :=
  match lookupA baseline_records kv.1 with
  | some b => kv.2.file_hash == b.file_hash && kv.2.permissions == b.permissions
  | none => false

lemma foldl_classifyStep_spec (baseline_records : List (String × FileRecord))
    (curr : List (String × FileRecord)) (res : VerifyResults) :
    curr.foldl (classifyStep baseline_records) res =
      { res with
        created := res.created ++ (curr.filter (isNewB baseline_records)).map Prod.fst
        modified := res.modified ++ (curr.filter (isModifiedB baseline_records)).map Prod.fst
        permission_changed := res.permission_changed
          ++ (curr.filter (isPermChangedB baseline_records)).map Prod.fst
        unchanged := res.unchanged
          ++ (curr.filter (isUnchangedB baseline_records)).map Prod.fst } := by
  induction curr generalizing res with
  | nil =>
      cases res
      simp
  | cons kv rest ih =>
      simp only [List.foldl_cons, ih, List.filter_cons]
      unfold classifyStep isNewB isModifiedB isPermChangedB isUnchangedB
      cases hb : lookupA baseline_records kv.1 with
      | none =>
          cases res
          simp [hb]
      | some b =>
          cases hh : kv.2.file_hash != b.file_hash with
          | true =>
              cases res
              simp [hb, hh, bne_iff_ne.mp hh]
          | false =>
              cases hp : kv.2.permissions != b.permissions with
              | true =>
                  cases res
                  simp [hb, hh, hp, bne_eq_false_iff_eq.mp hh, bne_iff_ne.mp hp]
              | false =>
                  cases res
                  simp [hb, hh, hp, bne_eq_false_iff_eq.mp hh, bne_eq_false_iff_eq.mp hp]

lemma foldl_deleted_spec (current_records : List (String × FileRecord))
    (base : List (String × FileRecord)) (res : VerifyResults) :
    base.foldl
      (fun r kv =>
        match lookupA current_records kv.1 with
        | none => { r with deleted := r.deleted ++ [kv.1] }
        | some _ => r)
      res =
      { res with
        deleted := res.deleted
          ++ (base.filter (fun kv => (lookupA current_records kv.1).isNone)).map Prod.fst } := by
  induction base generalizing res with
  | nil =>
      cases res
      simp
  | cons kv rest ih =>
      simp only [List.foldl_cons, List.filter_cons]
      cases hb : lookupA current_records kv.1 with
      | none =>
          rw [ih]
          cases res
          simp [hb]
      | some b =>
          rw [ih]
          cases res
          simp [hb]

lemma classify_diff_spec (current_records baseline_records : List (String × FileRecord)) :
    classify_diff current_records baseline_records =
      { total_files := current_records.length
        baseline_files := baseline_records.length
        created := (current_records.filter (isNewB baseline_records)).map Prod.fst
        deleted := (baseline_records.filter
          (fun kv => (lookupA current_records kv.1).isNone)).map Prod.fst
        modified := (current_records.filter (isModifiedB baseline_records)).map Prod.fst
        permission_changed :=
          (current_records.filter (isPermChangedB baseline_records)).map Prod.fst
        unchanged := (current_records.filter (isUnchangedB baseline_records)).map Prod.fst } := by
  unfold classify_diff
  dsimp only
  rw [foldl_classifyStep_spec, foldl_deleted_spec]
  simp

lemma mem_map_fst_filter (l : List (String × FileRecord)) (f : String × FileRecord → Bool)
    (p : String) :
    p ∈ (l.filter f).map Prod.fst ↔ ∃ c, (p, c) ∈ l ∧ f (p, c) = true := by
  rw [List.mem_map]
  constructor
  · rintro ⟨⟨k, c⟩, hkc, hp⟩
    obtain ⟨hm, hf⟩ := List.mem_filter.mp hkc
    cases hp
    exact ⟨c, hm, hf⟩
  · rintro ⟨c, hm, hf⟩
    exact ⟨(p, c), List.mem_filter.mpr ⟨hm, hf⟩, rfl⟩

lemma exists_mem_iff_lookupA (l : List (String × FileRecord)) (hnd : (keysA l).Nodup)
    (p : String) (P : FileRecord → Prop) :
    (∃ c, (p, c) ∈ l ∧ P c) ↔ (∃ c, lookupA l p = some c ∧ P c) := by
  constructor
  · rintro ⟨c, hm, hP⟩
    exact ⟨c, lookupA_eq_some_of_mem hnd hm, hP⟩
  · rintro ⟨c, hl, hP⟩
    exact ⟨c, mem_of_lookupA_eq_some hl, hP⟩

lemma verify_integrity_audit_flag (sign : String → String)
    (parseIso : String → Option String)
    (parseJson : String → Option (List (String × MetaVal))) (db : DBState) :
    (verify_integrity sign parseIso parseJson db).audit_log_integrity = true := by
  unfold verify_integrity
  dsimp only
  cases get_baseline sign parseIso db none <;>
    cases get_events sign parseIso parseJson db none none (some 100) <;> rfl

/-! ## Claims -/

/-! ### Concrete fixtures for witnesses and counterexamples -/

/-- A concrete stand-in for the keyed HMAC (any function works for the
theorems; this one is prefix-tagging, so distinct data get distinct
signatures). -/
def cSign : String → String := fun s => "sig:" ++ s

/-- A concrete `datetime.fromisoformat` instantiation: the string `garbage`
is not a valid isoformat string (the real parser raises on it), canonical
timestamps round-trip. -/
def cParseIso : String → Option String := fun s => if s == "garbage" then none else some s

/-- A concrete `json.loads` instantiation for the metadata column: the text
`not json` is not valid JSON (the real decoder raises on it). -/
def cParseJson : String → Option (List (String × MetaVal)) :=
  fun s => if s == "not json" then none else some []

/-- A concrete file record. -/
def cRec : FileRecord :=
  { file_path := "a.txt", file_hash := "h1", file_size := 1, mtime := 2, ctime := 3,
    permissions := 420, owner := "u", group := "g", inode := 4, device := 5,
    created_at := "T0", updated_at := "T0" }

/-- An initially empty store. -/
def cDb0 : DBState := { baseline := [], events := [], audit_log := [] }

/-- A baseline row whose four signed columns are untouched (its signature
verifies) but whose unsigned `created_at` column was overwritten in storage
with a non-isoformat string. -/
def cRowIsoTampered : BaselineRow :=
  { mkBaselineRow cSign cRec with created_at := "garbage" }

/-- An event row whose signed columns are untouched (its signature verifies)
but whose unsigned `metadata` column was overwritten in storage with text
that is not JSON. -/
def cEvMetaTampered : EventRow :=
  { event_id := "e1", event_type := "modified", file_path := "p.txt", timestamp := "T1",
    agent_id := "agent", previous_hash := none, current_hash := none, file_size := none,
    permissions := none, owner := none, group_name := none, metadata := "not json",
    signature := cSign (eventData "e1" "modified" "p.txt" "T1") }

/-- A store tampered only in unsigned columns: every signature verifies. -/
def cTamperedDb : DBState :=
  { baseline := [cRowIsoTampered], events := [cEvMetaTampered], audit_log := [] }

/-- C1 counterexample: the claim's converse says that if every row's
signature verifies, the call returns all matching records. In `cTamperedDb`
every baseline and event signature verifies (only the unsigned `created_at`
and `metadata` columns were modified in storage), yet `get_baseline` raises
the `datetime.fromisoformat` `ValueError` (`database.py:195`) and
`get_events` raises the `json.loads` decode error (`database.py:276`) — no
records are returned, refuting the converse. -/
theorem C1_unsigned_columns_counterexample :
    (∀ row ∈ selectBaselineRows cTamperedDb none,
      verify_signature cSign
        (baselineData row.file_path row.file_hash row.file_size row.mtime)
        row.signature = true) ∧
    get_baseline cSign cParseIso cTamperedDb none
      = .error ("Invalid isoformat string: garbage") ∧
    (∀ row ∈ selectEventRows cTamperedDb none none none,
      verify_signature cSign
        (eventData row.event_id row.event_type row.file_path row.timestamp)
        row.signature = true) ∧
    get_events cSign cParseIso cParseJson cTamperedDb none none none
      = .error ("Expecting value: not json") :=
  ⟨by decide, rfl, by decide, rfl⟩

/-- C1 (amended): each selected row is checked in row order, signature first.
The outcome is decided by the first offending row: if its signature fails,
the call raises the tamper error naming that row (path for baseline, event
id for events) and returns no records; if its signature verifies but one of
its decoded columns fails (`created_at`/`updated_at` for baseline; kind,
timestamp, metadata for events — the decoded-but-unsigned columns being a
real escape from the signature check), the call fails with that decode error
instead. Only when every selected row verifies and decodes does the call
return all matching records. -/
theorem C1_fail_closed_first_bad_row (sign : String → String)
    (parseIso : String → Option String)
    (parseJson : String → Option (List (String × MetaVal))) (db : DBState)
    (bpath epath : Option String) (etype : Option EventType) (limit : Option Nat) :
    (get_baseline sign parseIso db bpath =
      match (selectBaselineRows db bpath).find? (baselineRowBad sign parseIso) with
      | some row => .error (baselineRowError sign parseIso row)
      | none => .ok ((selectBaselineRows db bpath).filterMap (rowToRecord parseIso))) ∧
    (get_events sign parseIso parseJson db epath etype limit =
      match (selectEventRows db epath etype limit).find?
          (eventRowBad sign parseIso parseJson) with
      | some row => .error (eventRowError sign parseIso parseJson row)
      | none => .ok ((selectEventRows db epath etype limit).filterMap
          (rowToEvent parseIso parseJson))) :=
  ⟨verifyBaselineRows_eq sign parseIso _, verifyEventRows_eq sign parseIso parseJson _⟩

/-- C2: the claim describes mutations whose primary row and audit entry
commit atomically together. In the code no mutation ever commits anything:
the nested `_log_audit` write deadlocks against the caller's own write lock
and raises, so `store_baseline` with any record and every `store_event` fail
with `OperationalError("database is locked")` and leave the store unchanged
(only the degenerate empty `store_baseline` succeeds, committing nothing).
This contradicts the repository's own integration tests, which store
baselines and events and assert on the results — the claim states the
intent, the code is broken. -/
theorem C2_mutation_never_commits (sign : String → String) (now : String) (db : DBState)
    (r : FileRecord) (rs : List FileRecord) (e : FileEvent) (user : String) :
    store_baseline sign now db (r :: rs) user = .error "database is locked" ∧
    store_event sign now db e user = .error "database is locked" ∧
    store_baseline sign now db [] user = .ok db ∧
    logAudit sign now "INSERT_BASELINE" "baseline" r.file_path user none
      = .error "database is locked" :=
  ⟨rfl, rfl, rfl, rfl⟩

/-- A record already present in the stored baseline (placed there directly in
storage — the code's own write path cannot have committed it). -/
def c3OldRec : FileRecord := { cRec with file_path := "old.txt" }

/-- A store whose baseline holds only `old.txt`. -/
def c3Db : DBState :=
  { baseline := [mkBaselineRow cSign c3OldRec], events := [], audit_log := [] }

/-- The stat result used by the walk fixtures. -/
def c3Stat : FileStat :=
  { st_size := 1, st_mtime := 2, st_ctime := 3, st_mode := 420, owner := "u", group := "g",
    st_ino := 4, st_dev := 5 }

/-- A tree with no regular files (the walk enumerates nothing). -/
def c3FSempty : FS :=
  { files := [], stat := fun _ => none, readHash := fun _ => none }

/-- A tree containing only `new.txt`. -/
def c3FS : FS :=
  { files := ["new.txt"], stat := fun _ => some c3Stat, readHash := fun _ => some "h9" }

/-- The record the walk fingerprints for `new.txt` under `c3FS`. -/
def c3NewRec : FileRecord :=
  { file_path := "new.txt", file_hash := "h9", file_size := 1, mtime := 2, ctime := 3,
    permissions := 420, owner := "u", group := "g", inode := 4, device := 5,
    created_at := "T3", updated_at := "T3" }

/-- C3 counterexample: the claim says that after a `create_baseline` call
completes, the stored baseline's path set equals exactly the set of paths
fingerprinted in that call. Concretely: on a tree the walk enumerates as
empty, the call completes (`store_baseline([])` commits nothing) and returns
the empty record list, yet `old.txt` — not fingerprinted in this run — is
still present in the stored baseline: nothing is ever deleted. -/
theorem C3_replace_counterexample :
    create_baseline cSign "T3" c3FSempty (fun _ _ => false) [] c3Db = .ok (c3Db, []) ∧
    "old.txt" ∈ c3Db.baseline.map BaselineRow.file_path ∧
    "old.txt" ∉ ([] : List FileRecord).map FileRecord.file_path :=
  ⟨rfl, by decide, by decide⟩

/-- C3 (amended): baseline recreation never replaces anything. When the run
fingerprints no records, `create_baseline` completes and returns the store
unchanged with an empty record list; when it fingerprints at least one
record, it raises `OperationalError("database is locked")` (propagated from
`store_baseline`, `core.py:120` has no try/except) before anything commits.
In both cases the stored baseline — rows and path set — afterwards is
exactly the prior one: stale paths persist and newly fingerprinted paths are
never added. -/
theorem C3_no_replacement (sign : String → String) (now : String) (fs : FS)
    (matchFn : String → String → Bool) (exclude_patterns : List String) (db : DBState) :
    (collectRecords fs matchFn exclude_patterns now = [] →
      create_baseline sign now fs matchFn exclude_patterns db = .ok (db, [])) ∧
    (∀ r rs, collectRecords fs matchFn exclude_patterns now = r :: rs →
      create_baseline sign now fs matchFn exclude_patterns db
        = .error "database is locked") := by
  constructor
  · intro h
    unfold create_baseline
    dsimp only
    rw [h]
    rfl
  · intro r rs h
    unfold create_baseline
    dsimp only
    rw [h]
    rfl

theorem C3_no_replacement_witness :
    (collectRecords c3FSempty (fun _ _ => false) [] "T3" = [] ∧
     create_baseline cSign "T3" c3FSempty (fun _ _ => false) [] c3Db = .ok (c3Db, [])) ∧
    (collectRecords c3FS (fun _ _ => false) [] "T3" = [c3NewRec] ∧
     create_baseline cSign "T3" c3FS (fun _ _ => false) [] c3Db
       = .error "database is locked") :=
  ⟨⟨rfl, (C3_no_replacement cSign "T3" c3FSempty (fun _ _ => false) [] c3Db).1 rfl⟩,
   ⟨rfl, (C3_no_replacement cSign "T3" c3FS (fun _ _ => false) [] c3Db).2 c3NewRec [] rfl⟩⟩

/-- C4: diff classification. For maps with the keys a Python dict has
(current keys duplicate-free), every path falls in a category exactly per
its membership/hash/permission status: only-current → created; only-baseline
→ deleted; in both with differing hashes → modified (the hash check comes
first, so it wins over a simultaneous permission mismatch); in both, hash
equal, permissions differing → permission_changed; otherwise → unchanged.
The five characterizations are mutually exclusive, so each path lands in
exactly one category. -/
theorem C4_diff_classification (curr base : List (String × FileRecord)) (p : String)
    (hnd : (keysA curr).Nodup) :
    (p ∈ (classify_diff curr base).created ↔
      (lookupA curr p).isSome ∧ lookupA base p = none) ∧
    (p ∈ (classify_diff curr base).deleted ↔
      (lookupA base p).isSome ∧ lookupA curr p = none) ∧
    (p ∈ (classify_diff curr base).modified ↔
      ∃ c b, lookupA curr p = some c ∧ lookupA base p = some b ∧
        c.file_hash ≠ b.file_hash) ∧
    (p ∈ (classify_diff curr base).permission_changed ↔
      ∃ c b, lookupA curr p = some c ∧ lookupA base p = some b ∧
        c.file_hash = b.file_hash ∧ c.permissions ≠ b.permissions) ∧
    (p ∈ (classify_diff curr base).unchanged ↔
      ∃ c b, lookupA curr p = some c ∧ lookupA base p = some b ∧
        c.file_hash = b.file_hash ∧ c.permissions = b.permissions) := by
  rw [classify_diff_spec]
  refine ⟨?_, ?_, ?_, ?_, ?_⟩
  · show p ∈ (curr.filter (isNewB base)).map Prod.fst ↔ _
    rw [mem_map_fst_filter]
    constructor
    · rintro ⟨c, hm, hx⟩
      refine ⟨Option.isSome_iff_exists.mpr ?_, ?_⟩
      · exact ⟨c, lookupA_eq_some_of_mem hnd hm⟩
      · simpa [isNewB, Option.isNone_iff_eq_none] using hx
    · rintro ⟨hs, hn⟩
      obtain ⟨c, hc⟩ := Option.isSome_iff_exists.mp hs
      exact ⟨c, mem_of_lookupA_eq_some hc, by simp [isNewB, hn]⟩
  · show p ∈ (base.filter (fun kv => (lookupA curr kv.1).isNone)).map Prod.fst ↔ _
    rw [mem_map_fst_filter]
    constructor
    · rintro ⟨b, hm, hx⟩
      refine ⟨(lookupA_isSome_iff base p).mpr ⟨b, hm⟩, ?_⟩
      simpa [Option.isNone_iff_eq_none] using hx
    · rintro ⟨hs, hn⟩
      obtain ⟨b, hb⟩ := (lookupA_isSome_iff base p).mp hs
      exact ⟨b, hb, by simp [hn]⟩
  · show p ∈ (curr.filter (isModifiedB base)).map Prod.fst ↔ _
    rw [mem_map_fst_filter, exists_mem_iff_lookupA curr hnd p]
    constructor
    · rintro ⟨c, hc, hx⟩
      cases hb : lookupA base p with
      | none => simp [isModifiedB, hb] at hx
      | some b =>
          refine ⟨c, b, hc, rfl, ?_⟩
          simpa [isModifiedB, hb, bne_iff_ne] using hx
    · rintro ⟨c, b, hc, hb, hne⟩
      exact ⟨c, hc, by simp [isModifiedB, hb, bne_iff_ne, hne]⟩
  · show p ∈ (curr.filter (isPermChangedB base)).map Prod.fst ↔ _
    rw [mem_map_fst_filter, exists_mem_iff_lookupA curr hnd p]
    constructor
    · rintro ⟨c, hc, hx⟩
      cases hb : lookupA base p with
      | none => simp [isPermChangedB, hb] at hx
      | some b =>
          simp only [isPermChangedB, hb, Bool.and_eq_true, beq_iff_eq, bne_iff_ne] at hx
          exact ⟨c, b, hc, rfl, hx.1, hx.2⟩
    · rintro ⟨c, b, hc, hb, heq, hne⟩
      exact ⟨c, hc, by simp [isPermChangedB, hb, heq, bne_iff_ne, hne]⟩
  · show p ∈ (curr.filter (isUnchangedB base)).map Prod.fst ↔ _
    rw [mem_map_fst_filter, exists_mem_iff_lookupA curr hnd p]
    constructor
    · rintro ⟨c, hc, hx⟩
      cases hb : lookupA base p with
      | none => simp [isUnchangedB, hb] at hx
      | some b =>
          simp only [isUnchangedB, hb, Bool.and_eq_true, beq_iff_eq] at hx
          exact ⟨c, b, hc, rfl, hx.1, hx.2⟩
    · rintro ⟨c, b, hc, hb, heq, hpe⟩
      exact ⟨c, hc, by simp [isUnchangedB, hb, heq, hpe]⟩

/-- Current-state map for the C4 witness: `a.txt` re-hashed. -/
def c4Curr : List (String × FileRecord) := [("a.txt", { cRec with file_hash := "h2" })]

/-- Baseline map for the C4 witness. -/
def c4Base : List (String × FileRecord) := [("a.txt", cRec)]

theorem C4_diff_classification_witness :
    ((keysA c4Curr).Nodup) ∧
    ((("a.txt" ∈ (classify_diff c4Curr c4Base).created ↔
      (lookupA c4Curr "a.txt").isSome ∧ lookupA c4Base "a.txt" = none) ∧
    ("a.txt" ∈ (classify_diff c4Curr c4Base).deleted ↔
      (lookupA c4Base "a.txt").isSome ∧ lookupA c4Curr "a.txt" = none) ∧
    ("a.txt" ∈ (classify_diff c4Curr c4Base).modified ↔
      ∃ c b, lookupA c4Curr "a.txt" = some c ∧ lookupA c4Base "a.txt" = some b ∧
        c.file_hash ≠ b.file_hash) ∧
    ("a.txt" ∈ (classify_diff c4Curr c4Base).permission_changed ↔
      ∃ c b, lookupA c4Curr "a.txt" = some c ∧ lookupA c4Base "a.txt" = some b ∧
        c.file_hash = b.file_hash ∧ c.permissions ≠ b.permissions) ∧
    ("a.txt" ∈ (classify_diff c4Curr c4Base).unchanged ↔
      ∃ c b, lookupA c4Curr "a.txt" = some c ∧ lookupA c4Base "a.txt" = some b ∧
        c.file_hash = b.file_hash ∧ c.permissions = b.permissions))) :=
  ⟨by decide, C4_diff_classification c4Curr c4Base "a.txt" (by decide)⟩

/-- A two-file tree (the shape of the repository's own integration-test
fixture, which asserts this round trip succeeds). -/
def c5FS : FS :=
  { files := ["a.txt", "b.txt"]
    stat := fun _ => some c3Stat
    readHash := fun p => some ("h:" ++ p) }

/-- The verification result against the store `create_baseline` left
unchanged: every file is reported `created`, none `unchanged`. -/
def c5Res : VerifyResults :=
  { total_files := 2, baseline_files := 0, created := ["a.txt", "b.txt"], deleted := [],
    modified := [], permission_changed := [], unchanged := [] }

/-- C5: the claim (and the repository's own test
`test_baseline_creation_and_verification`) says create-then-verify yields
all-unchanged with matching counts. In the code the round trip cannot run:
`create_baseline` on any tree with a fingerprintable file raises
`OperationalError("database is locked")` out of `store_baseline` and stores
nothing, and verifying afterwards against the unchanged (empty) store
reports every file as created and none unchanged. -/
theorem C5_roundtrip_impossible :
    create_baseline cSign "T5" c5FS (fun _ _ => false) [] cDb0
      = .error "database is locked" ∧
    verify_baseline cSign cParseIso "T5" c5FS (fun _ _ => false) [] cDb0 = .ok c5Res :=
  ⟨rfl, rfl⟩

/-- A critical event (configuration-file extension under `/etc`) whose
metadata carries no alert marks. -/
def c6Ev : FileEvent :=
  { event_id := "e6", event_type := .modified, file_path := "/etc/app.conf",
    timestamp := "T6", agent_id := "agent" }

/-- C6: the claim says the event row written to the store carries the alert
flag and timestamp whenever the classifier accepts the event. In the code no
event row is ever written: `store_event` raises
`OperationalError("database is locked")` (nested `_log_audit` write against
the handler's own lock), the `except Exception` at `core.py:285` swallows
it, and execution never reaches `_is_critical_change`/`_send_alert`
(`core.py:281-283`) — so for this classifier-accepted event the handler
leaves the store untouched and the event metadata unmarked. (Even absent the
locking failure, the source order persists at `core.py:275` before marking
at `core.py:306-307`.) -/
theorem C6_event_never_persisted :
    is_critical_change c6Ev = true ∧
    store_event cSign "T6" cDb0 c6Ev "system" = .error "database is locked" ∧
    handle_file_event cSign cParseIso "T6" cDb0 c6Ev = (cDb0, c6Ev) ∧
    (handle_file_event cSign cParseIso "T6" cDb0 c6Ev).1.events = [] ∧
    lookupA (handle_file_event cSign cParseIso "T6" cDb0 c6Ev).2.metadata "alert_sent"
      = none :=
  ⟨by decide, rfl, rfl, rfl, rfl⟩

/-- C7: for every store state — tampered or not, in signed or unsigned
columns — `verify_integrity` returns a structured report (it is a total
function into `IntegrityReport`: every exception of the two reads is
absorbed); a failure of the baseline read downgrades exactly the baseline
flag and appends its message, a failure of the events read downgrades
exactly the events flag and appends its message, and the error list is
exactly the messages of the failed dimensions. -/
theorem C7_integrity_report_total (sign : String → String)
    (parseIso : String → Option String)
    (parseJson : String → Option (List (String × MetaVal))) (db : DBState) :
    (verify_integrity sign parseIso parseJson db).audit_log_integrity = true ∧
    ((verify_integrity sign parseIso parseJson db).baseline_integrity = false ↔
      ∃ e, get_baseline sign parseIso db none = .error e) ∧
    ((verify_integrity sign parseIso parseJson db).events_integrity = false ↔
      ∃ e, get_events sign parseIso parseJson db none none (some 100) = .error e) ∧
    (verify_integrity sign parseIso parseJson db).errors =
      (match get_baseline sign parseIso db none with
       | .ok _ => []
       | .error e => ["Baseline integrity check failed: " ++ e]) ++
      (match get_events sign parseIso parseJson db none none (some 100) with
       | .ok _ => []
       | .error e => ["Events integrity check failed: " ++ e]) := by
  refine ⟨verify_integrity_audit_flag sign parseIso parseJson db, ?_⟩
  unfold verify_integrity
  dsimp only
  cases hb : get_baseline sign parseIso db none <;>
    cases he : get_events sign parseIso parseJson db none none (some 100) <;>
      simp

/-- A tree with one file whose stat succeeds but whose content read fails
(the file vanished between `os.stat` and `open`). -/
def c8FS : FS :=
  { files := ["gone.txt"], stat := fun _ => some c3Stat, readHash := fun _ => none }

/-- The record `from_path` produces for `gone.txt`: an ordinary `FileRecord`
whose content hash is the empty string. -/
def c8Rec : FileRecord :=
  { file_path := "gone.txt", file_hash := "", file_size := 1, mtime := 2, ctime := 3,
    permissions := 420, owner := "u", group := "g", inode := 4, device := 5,
    created_at := "T8", updated_at := "T8" }

/-- C8 counterexample: the claim says a file that disappears mid-read makes
the fingerprint operation produce a typed error rather than a `FileRecord`.
Concretely: with the stat succeeding and the content read failing,
`FileRecord.from_path` succeeds and returns a record whose `file_hash` is
the empty string — `_calculate_hash` absorbs the read error
(`models.py:85-87`) and no error reaches the caller. -/
theorem C8_midread_counterexample :
    from_path c8FS "T8" "gone.txt" = .ok c8Rec ∧ c8Rec.file_hash = "" :=
  ⟨rfl, rfl⟩

/-- C8 (amended): a file unreadable at stat time produces the typed
`ValueError`, and the shared walk loop of both callers (`core.py:108-117`,
`core.py:155-159`) skips it with a warning and completes — the collected
fingerprints cover exactly the included files whose stat succeeded, and
`verify_baseline` (a pure read) returns results built over them whenever the
baseline read succeeds. A file that disappears after a successful stat,
during the content read, yields an ordinary `FileRecord` with an empty
content hash instead of a typed error. (`create_baseline`'s walk completes
identically, but the function then aborts in its store step for any
non-empty collection — a storage failure unrelated to fingerprint errors;
see C2/C3/C5.) -/
theorem C8_fingerprint_failures (fs : FS) (now p : String) :
    (fs.stat p = none → from_path fs now p = .error ("Could not read file " ++ p)) ∧
    (∀ st, fs.stat p = some st → from_path fs now p = .ok {
        file_path := p
        file_hash := calculate_hash fs p
        file_size := st.st_size
        mtime := st.st_mtime
        ctime := st.st_ctime
        permissions := st.st_mode
        owner := st.owner
        group := st.group
        inode := st.st_ino
        device := st.st_dev
        created_at := now
        updated_at := now }) ∧
    (∀ matchFn : String → String → Bool, ∀ exclude_patterns : List String,
      (collectRecords fs matchFn exclude_patterns now).map FileRecord.file_path
        = (includedFiles fs matchFn exclude_patterns).filter
            (fun q => (fs.stat q).isSome)) ∧
    (∀ sign : String → String, ∀ parseIso : String → Option String,
      ∀ matchFn : String → String → Bool, ∀ exclude_patterns : List String,
      ∀ db : DBState, ∀ l : List FileRecord,
      get_baseline sign parseIso db none = .ok l →
      verify_baseline sign parseIso now fs matchFn exclude_patterns db
        = .ok (classify_diff (recordMap (collectRecords fs matchFn exclude_patterns now))
            (recordMap l))) := by
  refine ⟨?_, ?_, ?_, ?_⟩
  · intro h
    unfold from_path
    rw [h]
  · intro st h
    unfold from_path
    rw [h]
  · intro matchFn exclude_patterns
    exact collectRecords_map_path fs matchFn exclude_patterns now
  · intro sign parseIso matchFn exclude_patterns db l h
    unfold verify_baseline
    dsimp only
    rw [h]
    rfl

/-- A tree mixing a readable file, a stat-failing file and a mid-read
failing file. -/
def c8FS2 : FS :=
  { files := ["ok.txt", "nostat.txt", "gone.txt"]
    stat := fun p => if p == "nostat.txt" then none else some c3Stat
    readHash := fun p => if p == "gone.txt" then none else some "h8" }

theorem C8_fingerprint_failures_witness :
    (c8FS2.stat "nostat.txt" = none) ∧
    (from_path c8FS2 "T8" "nostat.txt" = .error ("Could not read file " ++ "nostat.txt")) ∧
    (get_baseline cSign cParseIso cDb0 none = .ok []) ∧
    ((collectRecords c8FS2 (fun _ _ => false) [] "T8").map FileRecord.file_path
      = (includedFiles c8FS2 (fun _ _ => false) []).filter
          (fun q => (c8FS2.stat q).isSome)) ∧
    (verify_baseline cSign cParseIso "T8" c8FS2 (fun _ _ => false) [] cDb0
      = .ok (classify_diff (recordMap (collectRecords c8FS2 (fun _ _ => false) [] "T8"))
          (recordMap []))) :=
  ⟨rfl,
   (C8_fingerprint_failures c8FS2 "T8" "nostat.txt").1 rfl,
   rfl,
   (C8_fingerprint_failures c8FS2 "T8" "nostat.txt").2.2.1 (fun _ _ => false) [],
   (C8_fingerprint_failures c8FS2 "T8" "nostat.txt").2.2.2 cSign cParseIso
     (fun _ _ => false) [] cDb0 [] rfl⟩

/-- C9: monitor state machine. From an idle state, a successful `start`
spawns exactly one engine; a second `start` while monitoring is a warning
no-op that spawns nothing and does not error. `stop` while idle (including
before any start) is a warning no-op, and after a `stop` from an active
state a second `stop` only warns — so start-start leaves exactly one active
engine and stop-stop leaves the monitor idle. -/
theorem C9_monitor_state_machine (cfg_paths : List String) (path_exists : String → Bool)
    (st st1 stActive : MonitorState) (paths : Option (List String))
    (hidle : st.is_monitoring = false)
    (hok : start_monitoring cfg_paths path_exists st paths = .ok st1)
    (hact : stActive.is_monitoring = true) :
    st1.is_monitoring = true ∧
    st1.observer = some st.next_engine ∧
    st1.next_engine = st.next_engine + 1 ∧
    start_monitoring cfg_paths path_exists st1 paths
      = .ok { st1 with warnings := st1.warnings + 1 } ∧
    stop_monitoring st = { st with warnings := st.warnings + 1 } ∧
    stop_monitoring stActive = { stActive with is_monitoring := false, observer := none } ∧
    stop_monitoring (stop_monitoring stActive)
      = { stActive with
          is_monitoring := false
          observer := none
          warnings := stActive.warnings + 1 } := by
  unfold start_monitoring at hok
  simp only [hidle, Bool.false_eq_true, if_false] at hok
  split at hok
  · exact absurd hok (by simp)
  · rw [Except.ok.injEq] at hok
    subst hok
    refine ⟨rfl, rfl, rfl, ?_, ?_, ?_, ?_⟩
    · unfold start_monitoring
      rfl
    · unfold stop_monitoring
      simp [hidle]
    · unfold stop_monitoring
      simp [hact]
    · unfold stop_monitoring
      simp [hact]

/-- A freshly constructed (idle) monitor. -/
def c9St0 : MonitorState :=
  { is_monitoring := false, observer := none, next_engine := 0, warnings := 0 }

/-- The monitor after one successful `start`. -/
def c9St1 : MonitorState :=
  { is_monitoring := true, observer := some 0, next_engine := 1, warnings := 0 }

theorem C9_monitor_state_machine_witness :
    (c9St0.is_monitoring = false ∧
     start_monitoring [] (fun _ => true) c9St0 (some ["w"]) = .ok c9St1 ∧
     c9St1.is_monitoring = true) ∧
    (c9St1.is_monitoring = true ∧
     c9St1.observer = some c9St0.next_engine ∧
     c9St1.next_engine = c9St0.next_engine + 1 ∧
     start_monitoring [] (fun _ => true) c9St1 (some ["w"])
       = .ok { c9St1 with warnings := c9St1.warnings + 1 } ∧
     stop_monitoring c9St0 = { c9St0 with warnings := c9St0.warnings + 1 } ∧
     stop_monitoring c9St1 = { c9St1 with is_monitoring := false, observer := none } ∧
     stop_monitoring (stop_monitoring c9St1)
       = { c9St1 with
           is_monitoring := false
           observer := none
           warnings := c9St1.warnings + 1 }) :=
  ⟨⟨rfl, rfl, rfl⟩,
    C9_monitor_state_machine [] (fun _ => true) c9St0 c9St1 c9St1 (some ["w"]) rfl rfl rfl⟩

/-- C10: the audit-log dimension of the integrity report is vacuous — for
every store state, however the `audit_log` rows are replaced or tampered
with, `verify_integrity` reports `audit_log_integrity = true` and returns a
report identical to the one for the untouched audit log, because no read
path inspects `audit_log`. -/
theorem C10_audit_dimension_vacuous (sign : String → String)
    (parseIso : String → Option String)
    (parseJson : String → Option (List (String × MetaVal))) (db : DBState)
    (tampered_audit : List AuditRow) :
    (verify_integrity sign parseIso parseJson
        { db with audit_log := tampered_audit }).audit_log_integrity = true ∧
    verify_integrity sign parseIso parseJson { db with audit_log := tampered_audit }
      = verify_integrity sign parseIso parseJson db :=
  ⟨verify_integrity_audit_flag sign parseIso parseJson _, rfl⟩
